import Mathlib

/-!
# Verification of the Workshop multi-engine table inspector

Shallow embedding of the database-tool subsystem of the `workshop`
repository (Rust sources under `src/src-tauri/src/`), together with
theorems settling the specification claims about it.

The repository contains two generations of the subsystem:

* the registered command layer in `commands/db_tool_commands.rs`
  (wired in `lib.rs` through `invoke_handler`), which owns the MySQL
  pool directly; and
* the newer backend layer in `db_factory.rs` (`MySqlBackend` /
  `SqliteBackend` behind the `DbBackend` trait), declared and
  constructed types of which appear in `state.rs` and `lib.rs`.

Both are embedded below where a claim's sources cite them.  Engine
execution (the MySQL / SQLite server answering a query string) is
abstracted as an explicit function from the query text to the rows it
returns; everything on the Rust side of that boundary is translated
from the source.
-/

set_option autoImplicit false
set_option linter.unusedVariables false

namespace Workshop

/-! ## Identifier validator

`db_tool_commands.rs:365` and `:398`:
`let is_valid_ident = |s: &str| s.chars().all(|c| c.is_ascii_alphanumeric() || c == '_');`

`Char.isAlphanum` in Lean is exactly the ASCII alphanumeric test used
by Rust's `char::is_ascii_alphanumeric`.
-/

/-- One character of a safe identifier: ASCII letter, ASCII digit or `_`. -/
def isIdentChar (c : Char) : Bool :=
  c.isAlphanum || c == '_'

/-- `is_valid_ident` closure of `db_tool_commands.rs` (`delete_row` line 365,
`update_row` line 398).  Rust's `s.chars()` is the character sequence
`s.data`. -/
def is_valid_ident (s : String) : Bool :=
  s.data.all isIdentChar

/-- The string contains at least one character outside the
letter/digit/underscore class (the premise of the identifier claims). -/
def badIdent (s : String) : Prop :=
  ∃ c ∈ s.data, isIdentChar c = false

instance (s : String) : Decidable (badIdent s) := by
  unfold badIdent; infer_instance

theorem is_valid_ident_eq_false_of_bad {s : String} (h : badIdent s) :
    is_valid_ident s = false := by
  rcases h with ⟨c, hc, hbad⟩
  unfold is_valid_ident
  rw [List.all_eq_false]
  exact ⟨c, hc, by simp [hbad]⟩

/-! ## Rust string primitives

The Rust string operations used by the subsystem (`trim`,
`starts_with`, `split_once`, `lines`, `to_uppercase` on ASCII,
`replace`, `rfind`, `parse::<u32>`), implemented over the character
sequence `String.data` so that every model is executable. -/

/-- Rust `str::trim`: strip whitespace from both ends. -/
def rsTrim (s : String) : String :=
  String.mk (((s.data.dropWhile Char.isWhitespace).reverse.dropWhile Char.isWhitespace).reverse)

/-- Rust `str::starts_with`. -/
def rsStartsWith (s pre : String) : Bool :=
  pre.data.isPrefixOf s.data

/-- Rust `str::split_once(sep)`: split at the first occurrence of the
character `sep`. -/
def rsSplitOnce (sep : Char) (s : String) : Option (String × String) :=
  match s.data.span (fun c => c != sep) with
  | (_, []) => none
  | (key, _ :: rest) => some (String.mk key, String.mk rest)

/-- Split a character list at every occurrence of `sep` (the pieces do
not contain `sep`). -/
def splitCharList (sep : Char) : List Char → List (List Char)
  | [] => [[]]
  | c :: cs =>
    if c = sep then [] :: splitCharList sep cs
    else
      match splitCharList sep cs with
      | [] => [[c]]
      | h :: t => (c :: h) :: t

/-- Rust `str::lines`, as the `\n`-separated pieces.  (Rust also strips
a final `\r` and drops a trailing empty line; both differences are
absorbed by the `trim`/blank-line handling of every consumer below.) -/
def rsLines (s : String) : List String :=
  (splitCharList '\n' s.data).map String.mk

/-- Rust `str::to_uppercase` restricted to its ASCII behaviour, which
is all the subsystem relies on (the searched token `LIMIT` and the
compared directions `ASC`/`DESC` are ASCII). -/
def rsUpper (s : String) : String :=
  String.mk (s.data.map Char.toUpper)

/-- Rust `str::replace(from, to)` for a one-character pattern (the only
form the subsystem uses: doubling a quote character). -/
def rsReplaceChar (s : String) (from_ : Char) (to_ : String) : String :=
  String.mk ((s.data.map (fun c => if c = from_ then to_.data else [c])).flatten)

/-- Rust `str::rfind(pat)`: index of the last occurrence of `pat`, as a
character index (the sources only search ASCII haystacks, where Rust's
byte index coincides). -/
def rsRfind (s pat : String) : Option Nat :=
  ((List.range (s.data.length + 1)).filter
    (fun i => pat.data.isPrefixOf (s.data.drop i))).getLast?

/-- Rust `str::split_whitespace().next()`: the first maximal
whitespace-free token, if any. -/
def rsFirstToken (s : String) : Option String :=
  match (s.data.dropWhile Char.isWhitespace).takeWhile (fun c => !c.isWhitespace) with
  | [] => none
  | l => some (String.mk l)

/-- Rust `str::parse::<u32>`: optional leading `+`, then one or more
ASCII digits, rejecting values above `u32::MAX`. -/
def rsParseU32 (s : String) : Option Nat :=
  let l := match s.data with
    | '+' :: rest => rest
    | l => l
  if l = [] then none
  else if l.all Char.isDigit then
    let v := l.foldl (fun a c => a * 10 + (c.toNat - 48)) 0
    if v < 4294967296 then some v else none
  else none

/-- Character-index slice `s[..i]` (callers pass ASCII clauses, where
Rust's byte slicing coincides). -/
def rsTake (s : String) (i : Nat) : String :=
  String.mk (s.data.take i)

/-- Character-index slice `s[i..]`. -/
def rsDrop (s : String) (i : Nat) : String :=
  String.mk (s.data.drop i)

/-! ## Value normalization

`String::from_utf8_lossy` (used by both generations for byte blobs) is
modelled by a faithful UTF-8 decoder with Rust's substitution of
maximal invalid subparts by U+FFFD, written with an explicit fuel
argument (one byte is consumed per step, so `length` fuel is always
enough) so that it is structurally recursive and computable inside the
kernel. -/

/-- A UTF-8 continuation byte (`10xxxxxx`). -/
def utf8Cont (b : Nat) : Bool := 128 ≤ b && b ≤ 191

/-- One decoding step per fuel unit; each step consumes at least the
leading byte.  Invalid leading bytes, out-of-range continuations,
overlong encodings and surrogates produce U+FFFD for the maximal
invalid subpart, exactly as `String::from_utf8_lossy` does. -/
def utf8LossyAux : Nat → List Nat → List Char
  | 0, _ => []
  | _, [] => []
  | fuel + 1, b1 :: bs =>
    if b1 ≤ 0x7F then Char.ofNat b1 :: utf8LossyAux fuel bs
    else if 0xC2 ≤ b1 ∧ b1 ≤ 0xDF then
      match bs with
      | b2 :: bs2 =>
        if utf8Cont b2 then Char.ofNat ((b1 - 0xC0) * 64 + (b2 - 0x80)) :: utf8LossyAux fuel bs2
        else '�' :: utf8LossyAux fuel bs
      | [] => ['�']
    else if 0xE0 ≤ b1 ∧ b1 ≤ 0xEF then
      let lo2 := if b1 = 0xE0 then 0xA0 else 0x80
      let hi2 := if b1 = 0xED then 0x9F else 0xBF
      match bs with
      | b2 :: bs2 =>
        if lo2 ≤ b2 ∧ b2 ≤ hi2 then
          match bs2 with
          | b3 :: bs3 =>
            if utf8Cont b3 then
              Char.ofNat ((b1 - 0xE0) * 4096 + (b2 - 0x80) * 64 + (b3 - 0x80)) :: utf8LossyAux fuel bs3
            else '�' :: utf8LossyAux fuel bs2
          | [] => ['�']
        else '�' :: utf8LossyAux fuel bs
      | [] => ['�']
    else if 0xF0 ≤ b1 ∧ b1 ≤ 0xF4 then
      let lo2 := if b1 = 0xF0 then 0x90 else 0x80
      let hi2 := if b1 = 0xF4 then 0x8F else 0xBF
      match bs with
      | b2 :: bs2 =>
        if lo2 ≤ b2 ∧ b2 ≤ hi2 then
          match bs2 with
          | b3 :: bs3 =>
            if utf8Cont b3 then
              match bs3 with
              | b4 :: bs4 =>
                if utf8Cont b4 then
                  Char.ofNat ((b1 - 0xF0) * 262144 + (b2 - 0x80) * 4096
                    + (b3 - 0x80) * 64 + (b4 - 0x80)) :: utf8LossyAux fuel bs4
                else '�' :: utf8LossyAux fuel bs3
              | [] => ['�']
            else '�' :: utf8LossyAux fuel bs2
          | [] => ['�']
        else '�' :: utf8LossyAux fuel bs
      | [] => ['�']
    else '�' :: utf8LossyAux fuel bs

/-- Rust `String::from_utf8_lossy`. -/
def utf8Lossy (bytes : List Nat) : String :=
  String.mk (utf8LossyAux bytes.length bytes)

/-- `format!` zero padding (`{:04}` / `{:02}`): pad the decimal digits
of `n` with leading zeros to width `w` (wider numbers print in full). -/
def padZeros (w n : Nat) : String :=
  String.mk (List.replicate (w - (toString n).length) '0') ++ toString n

/-- `mysql::Value`, the native MySQL cell values.  `Float`/`Double`
carry the decimal text Rust's `to_string` renders for the IEEE value
(binary floating-point formatting itself is not modelled); `Int` is
the `i64` payload, `UInt` the `u64`, `Bytes` the raw byte vector, and
`Date`/`Time` their component fields, the trailing microseconds field
included. -/
inductive MySqlValue where
  | NULL
  | Bytes (bytes : List Nat)
  | Int (n : Int)
  | UInt (n : Nat)
  | Float (rendered : String)
  | Double (rendered : String)
  | Date (year month day hour minute second microsecond : Nat)
  | Time (negative : Bool) (days hours minutes seconds microseconds : Nat)
deriving Repr, DecidableEq

/-- `MySqlBackend::convert_value` (`db_factory.rs:65-82`): NULL becomes
`None`; everything else is rendered to text. -/
def MySqlBackend.convert_value : MySqlValue → Option String
  | .NULL => none
  | .Bytes bytes => some (utf8Lossy bytes)
  | .Int n => some (toString n)
  | .UInt n => some (toString n)
  | .Float r => some r
  | .Double r => some r
  | .Date y mo d h mi s _ =>
      some (padZeros 4 y ++ "-" ++ padZeros 2 mo ++ "-" ++ padZeros 2 d ++ " "
        ++ padZeros 2 h ++ ":" ++ padZeros 2 mi ++ ":" ++ padZeros 2 s)
  | .Time neg d h mi s _ =>
      some ((if neg then "-" else "") ++ toString d ++ "."
        ++ padZeros 2 h ++ ":" ++ padZeros 2 mi ++ ":" ++ padZeros 2 s)

/-- `convert_mysql_value` of the registered command layer
(`db_tool_commands.rs:12-28`): same renderings, but the result is plain
text and engine NULL becomes the literal string `"NULL"`. -/
def convert_mysql_value : MySqlValue → String
  | .NULL => "NULL"
  | .Bytes bytes => utf8Lossy bytes
  | .Int n => toString n
  | .UInt n => toString n
  | .Float r => r
  | .Double r => r
  | .Date y mo d h mi s _ =>
      padZeros 4 y ++ "-" ++ padZeros 2 mo ++ "-" ++ padZeros 2 d ++ " "
        ++ padZeros 2 h ++ ":" ++ padZeros 2 mi ++ ":" ++ padZeros 2 s
  | .Time neg d h mi s _ =>
      (if neg then "-" else "") ++ toString d ++ "."
        ++ padZeros 2 h ++ ":" ++ padZeros 2 mi ++ ":" ++ padZeros 2 s

/-- `rusqlite::types::Value`, the native SQLite cell values (`Real`
carries its `f64`'s decimal rendering, as for MySQL). -/
inductive SqliteValue where
  | Null
  | Integer (i : Int)
  | Real (rendered : String)
  | Text (s : String)
  | Blob (b : List Nat)
deriving Repr, DecidableEq

/-- `SqliteBackend::convert_value` (`db_factory.rs:361-369`). -/
def SqliteBackend.convert_value : SqliteValue → Option String
  | .Null => none
  | .Integer i => some (toString i)
  | .Real r => some r
  | .Text s => some s
  | .Blob b => some (utf8Lossy b)

/-- The specification's `YYYY-MM-DD HH:MM:SS` rendering of a date-time
value. -/
def specDateTimeText (y mo d h mi s : Nat) : String :=
  String.intercalate "-" [padZeros 4 y, padZeros 2 mo, padZeros 2 d] ++ " "
    ++ String.intercalate ":" [padZeros 2 h, padZeros 2 mi, padZeros 2 s]

/-- The specification's signed `D.HH:MM:SS` rendering of a duration
value. -/
def specDurationText (neg : Bool) (d h mi s : Nat) : String :=
  (if neg then "-" else "") ++ toString d ++ "."
    ++ String.intercalate ":" [padZeros 2 h, padZeros 2 mi, padZeros 2 s]

/-- Modelled from the spec: cell normalization as §4.2 words it —
engine NULL maps to `none`, blobs to their best-effort UTF-8 decode,
integers and floats to their decimal rendering, date/time values to the
fixed `YYYY-MM-DD HH:MM:SS` text and durations to the signed
`D.HH:MM:SS` text — for comparison with the backend's `convert_value`. -/
def specNormalizeMySql : MySqlValue → Option String
  | .NULL => none
  | .Bytes bs => some (utf8Lossy bs)
  | .Int n => some (toString n)
  | .UInt n => some (toString n)
  | .Float r => some r
  | .Double r => some r
  | .Date y mo d h mi s _ => some (specDateTimeText y mo d h mi s)
  | .Time neg d h mi s _ => some (specDurationText neg d h mi s)

/-! ## Mutation commands (`db_tool_commands.rs`, the registered handlers)

The commands first obtain a pooled connection, then validate, then
either return early or execute exactly one statement.  The model keeps
everything from the validation step on: the result is either the error
string returned to the caller, a no-op (source `return Ok(0)` without
touching the connection), or the single SQL statement issued together
with its bound parameters. -/

/-- What a mutation command does after its early checks: nothing
(`Ok(0)` without a statement) or one statement `stmt` executed with
bound parameters `params`. -/
inductive UpdateAction where
  | noop
  | exec (stmt : String) (params : List String)
deriving Repr, DecidableEq

/-- The statements a finished mutation command issued against the
target database: none on an error or a no-op, the single executed
statement otherwise. -/
def issuedStmts : Except String UpdateAction → List String
  | .error _ => []
  | .ok .noop => []
  | .ok (.exec stmt _) => [stmt]

/-- The `for (key, value) in &update_data` loop of `update_row`
(`db_tool_commands.rs:413-419`): validates every key, accumulating the
`` `key` = ? `` fragments and the bound values; the first invalid key
aborts the command. -/
def buildSets : List (String × String) → Except String (List String × List String)
  | [] => .ok ([], [])
  | (key, value) :: rest =>
    if is_valid_ident key then
      match buildSets rest with
      | .error e => .error e
      | .ok (sets, params) =>
          .ok (("`" ++ key ++ "` = ?") :: sets, value :: params)
    else
      .error ("Invalid column name: " ++ key)

/-- `update_row` command (`db_tool_commands.rs:386-434`), from the point
where a connection has been obtained.  `data` is the `changes` mapping
(a `HashMap` in the source; modelled as its entry list). -/
def update_row_cmd (table_name pk_column pk_value : String)
    (data : List (String × String)) : Except String UpdateAction :=
  if !is_valid_ident table_name || !is_valid_ident pk_column then
    .error "Invalid table or column name"
  else
    -- `update_data.remove(&pk_column)` (line 404)
    let update_data := data.filter (fun kv => kv.1 ≠ pk_column)
    if update_data.isEmpty then
      .ok .noop  -- `return Ok(0)` (line 407), no statement issued
    else
      match buildSets update_data with
      | .error e => .error e
      | .ok (sets, params) =>
          .ok (.exec
            ("UPDATE `" ++ table_name ++ "` SET " ++ String.intercalate ", " sets
              ++ " WHERE `" ++ pk_column ++ "` = ?")
            (params ++ [pk_value]))

/-- `delete_row` command (`db_tool_commands.rs:351-383`), from the point
where a connection has been obtained. -/
def delete_row_cmd (table_name pk_column pk_value : String) :
    Except String UpdateAction :=
  if !is_valid_ident table_name || !is_valid_ident pk_column then
    .error "Invalid table or column name"
  else
    .ok (.exec
      ("DELETE FROM `" ++ table_name ++ "` WHERE `" ++ pk_column ++ "` = :value")
      [pk_value])

theorem buildSets_error_of_bad {l : List (String × String)}
    (h : ∃ kv ∈ l, badIdent kv.1) :
    ∃ k, buildSets l = .error ("Invalid column name: " ++ k) := by
  induction l with
  | nil => rcases h with ⟨kv, hmem, _⟩; cases hmem
  | cons hd tl ih =>
      rcases h with ⟨kv, hmem, hbad⟩
      by_cases hv : is_valid_ident hd.1 = true
      · rcases List.mem_cons.mp hmem with rfl | htl
        · rw [is_valid_ident_eq_false_of_bad hbad] at hv; cases hv
        · rcases ih ⟨kv, htl, hbad⟩ with ⟨k, hk⟩
          refine ⟨k, ?_⟩
          obtain ⟨k1, v1⟩ := hd
          simp only [buildSets, hv, if_true]
          rw [hk]
      · refine ⟨hd.1, ?_⟩
        obtain ⟨k1, v1⟩ := hd
        simp only [Bool.not_eq_true] at hv
        simp only [buildSets, hv]
        simp

theorem isIdentChar_iff (c : Char) :
    isIdentChar c = true ↔
      ('A' ≤ c ∧ c ≤ 'Z') ∨ ('a' ≤ c ∧ c ≤ 'z') ∨ ('0' ≤ c ∧ c ≤ '9') ∨ c = '_' := by
  simp [isIdentChar, Char.isAlphanum, Char.isAlpha, Char.isDigit, Char.isUpper, Char.isLower,
    Char.le_def, UInt32.le_def, Char.ext_iff]
  tauto

/-- C7 counterexample: the claim says the identifier validator returns
`false` for the empty string, but `is_valid_ident` is a bare
`chars().all(..)`, which is vacuously `true` on `""`. -/
theorem c7_counterexample_empty_string_accepted : is_valid_ident "" = true := rfl

/-- C7 (amended): the identifier validator returns `true` iff every
character of the string is an ASCII letter, ASCII digit or underscore;
there is no non-emptiness requirement, so the empty string is accepted
vacuously. -/
theorem c7_valid_ident_characterization (s : String) :
    is_valid_ident s = true ↔
      ∀ c ∈ s.data,
        ('A' ≤ c ∧ c ≤ 'Z') ∨ ('a' ≤ c ∧ c ≤ 'z') ∨ ('0' ≤ c ∧ c ≤ '9') ∨ c = '_' := by
  unfold is_valid_ident
  rw [List.all_eq_true]
  exact forall₂_congr (fun c _ => isIdentChar_iff c)

/-- C1: if `table_name`, `pk_column`, or (for `update_row`) any key of
the `changes` mapping contains a character outside the ASCII
letter/digit/underscore class, the registered `update_row` /
`delete_row` commands fail with the invalid-identifier error message
and issue no SQL statement against the target database. -/
theorem c1_mutations_reject_invalid_identifiers
    (table_name pk_column pk_value : String) (changes : List (String × String))
    (h : badIdent table_name ∨ badIdent pk_column ∨ ∃ kv ∈ changes, badIdent kv.1) :
    ((∃ e, update_row_cmd table_name pk_column pk_value changes = .error e ∧
        (e = "Invalid table or column name" ∨ ∃ k, e = "Invalid column name: " ++ k)) ∧
      issuedStmts (update_row_cmd table_name pk_column pk_value changes) = []) ∧
    ((badIdent table_name ∨ badIdent pk_column) →
      delete_row_cmd table_name pk_column pk_value = .error "Invalid table or column name" ∧
      issuedStmts (delete_row_cmd table_name pk_column pk_value) = []) := by
  by_cases hguard : (!is_valid_ident table_name || !is_valid_ident pk_column) = true
  · have hupd : update_row_cmd table_name pk_column pk_value changes =
        .error "Invalid table or column name" := by
      unfold update_row_cmd; rw [if_pos hguard]
    have hdel : delete_row_cmd table_name pk_column pk_value =
        .error "Invalid table or column name" := by
      unfold delete_row_cmd; rw [if_pos hguard]
    exact ⟨⟨⟨_, hupd, Or.inl rfl⟩, by rw [hupd]; rfl⟩, fun _ => ⟨hdel, by rw [hdel]; rfl⟩⟩
  · -- both table and pk names are valid, so a change key must be bad
    have hg : is_valid_ident table_name = true ∧ is_valid_ident pk_column = true := by
      constructor <;> by_contra hcon <;> apply hguard <;>
        simp only [Bool.or_eq_true, Bool.not_eq_true', Bool.not_eq_true] <;>
        [exact Or.inl (Bool.not_eq_true _ ▸ hcon); exact Or.inr (Bool.not_eq_true _ ▸ hcon)]
    obtain ⟨htab, hpk⟩ := hg
    rcases h with hbad | hbad | ⟨kv, hmem, hbad⟩
    · rw [is_valid_ident_eq_false_of_bad hbad] at htab; cases htab
    · rw [is_valid_ident_eq_false_of_bad hbad] at hpk; cases hpk
    have hne : kv.1 ≠ pk_column := by
      intro heq
      rw [is_valid_ident_eq_false_of_bad (heq ▸ hbad)] at hpk; cases hpk
    have hmem' : kv ∈ changes.filter (fun kv => kv.1 ≠ pk_column) := by
      rw [List.mem_filter]; exact ⟨hmem, by simpa using hne⟩
    have hnonempty : (changes.filter (fun kv => kv.1 ≠ pk_column)).isEmpty = false := by
      have hne' := List.ne_nil_of_mem hmem'
      cases hl : changes.filter (fun kv => kv.1 ≠ pk_column) with
      | nil => exact absurd hl hne'
      | cons a l => rfl
    rcases buildSets_error_of_bad ⟨kv, hmem', hbad⟩ with ⟨k, hk⟩
    have hupd : update_row_cmd table_name pk_column pk_value changes =
        .error ("Invalid column name: " ++ k) := by
      unfold update_row_cmd
      rw [if_neg hguard]
      simp only [hnonempty, Bool.false_eq_true, if_false, hk]
    refine ⟨⟨⟨_, hupd, Or.inr ⟨k, rfl⟩⟩, by rw [hupd]; rfl⟩, fun hbad2 => ?_⟩
    rcases hbad2 with hbad2 | hbad2
    · rw [is_valid_ident_eq_false_of_bad hbad2] at htab; cases htab
    · rw [is_valid_ident_eq_false_of_bad hbad2] at hpk; cases hpk

/-- C1 witness: concrete invalid table name `"users;"` rejected by both
mutation commands with no statement issued. -/
theorem c1_witness :
    (badIdent "users;" ∨ badIdent "id" ∨
        ∃ kv ∈ ([("name", "x")] : List (String × String)), badIdent kv.1) ∧
      (((∃ e, update_row_cmd "users;" "id" "42" [("name", "x")] = .error e ∧
          (e = "Invalid table or column name" ∨ ∃ k, e = "Invalid column name: " ++ k)) ∧
        issuedStmts (update_row_cmd "users;" "id" "42" [("name", "x")]) = []) ∧
      ((badIdent "users;" ∨ badIdent "id") →
        delete_row_cmd "users;" "id" "42" = .error "Invalid table or column name" ∧
        issuedStmts (delete_row_cmd "users;" "id" "42") = [])) :=
  ⟨by decide,
    c1_mutations_reject_invalid_identifiers "users;" "id" "42" [("name", "x")] (by decide)⟩

/-! ## Credential resolution (`connect_database`, `db_tool_commands.rs:46-153`)

`connect_database` loads the project record (which carries the
project's filesystem location and its stored `db_config` blob column),
then cascades: the `.env` file first, then `.workshop/project.json`.
The stored blob is available on the loaded record but never read. -/

/-- One iteration of the `.env` line loop
(`db_tool_commands.rs:75-82`): skip the line when its trim is empty or
it starts with `#`; otherwise split at the first `=` and keep the
trimmed key and value.  No quote stripping is performed. -/
def parseEnvLine (line : String) : Option (String × String) :=
  if rsTrim line = "" || rsStartsWith line "#" then none
  else
    match rsSplitOnce '=' line with
    | none => none
    | some (key, value) => some (rsTrim key, rsTrim value)

/-- All `KEY=VALUE` bindings of an `.env` file body, in line order. -/
def envPairs (content : String) : List (String × String) :=
  (rsLines content).filterMap parseEnvLine

/-- Lookup in the `env_vars` map: `HashMap::insert` overwrites, so the
last binding of a key wins. -/
def envLookup (content key : String) : Option String :=
  ((envPairs content).reverse.find? (fun kv => kv.1 == key)).map (fun kv => kv.2)

/-- The connection parameters the cascade produces (the five mutable
locals of `connect_database`). -/
structure ResolvedMysql where
  host : String
  port : String
  database : String
  username : String
  password : String
deriving Repr, DecidableEq

/-- The `.env` step of the cascade (`db_tool_commands.rs:87-104`): only
`DB_CONNECTION=mysql` is handled, and only when all five keys
`DB_HOST`, `DB_PORT`, `DB_DATABASE`, `DB_USERNAME`, `DB_PASSWORD` are
present.  There is no branch for `DB_CONNECTION=sqlite`. -/
def envMysqlCreds (content : String) : Option ResolvedMysql :=
  match envLookup content "DB_CONNECTION" with
  | none => none
  | some conn =>
    if conn = "mysql" then
      match envLookup content "DB_HOST", envLookup content "DB_PORT",
            envLookup content "DB_DATABASE", envLookup content "DB_USERNAME",
            envLookup content "DB_PASSWORD" with
      | some h, some p, some d, some u, some pw => some ⟨h, p, d, u, pw⟩
      | _, _, _, _, _ => none
    else none

/-- The parsed `database` object of `.workshop/project.json`, each field
as `as_str()` sees it (`none` both for an absent key and a non-string
value). -/
structure JsonDbConfig where
  connection : Option String
  host : Option String
  port : Option String
  database : Option String
  username : Option String
  password : Option String
deriving Repr, DecidableEq

/-- The `.workshop/project.json` step (`db_tool_commands.rs:109-132`):
accepted only when `connection` is `"mysql"` (absent fields default to
`""`) and `host`, `database` and `username` are non-empty. -/
def jsonMysqlCreds (cfg : JsonDbConfig) : Option ResolvedMysql :=
  if cfg.connection.getD "" = "mysql" then
    let h := cfg.host.getD ""
    let p := cfg.port.getD ""
    let d := cfg.database.getD ""
    let u := cfg.username.getD ""
    let pw := cfg.password.getD ""
    if h ≠ "" ∧ d ≠ "" ∧ u ≠ "" then some ⟨h, p, d, u, pw⟩ else none
  else none

/-- The error returned when no cascade source matches
(`db_tool_commands.rs:135`). -/
def credentialsNotFoundMsg : String :=
  "Database configuration not found. Please ensure either a .env file with DB credentials exists or configure the database settings."

/-- The credential cascade of `connect_database`
(`db_tool_commands.rs:62-136`): `.env` first, then
`.workshop/project.json`.  `envContent` is the `.env` body when the
file exists and is readable, `projectJson` the parsed `database` object
of `.workshop/project.json` when available, and `storedBlob` the
project record's `db_config` column — which the function receives (it
is a column of the loaded project row) but never reads. -/
def connect_database_resolve (envContent : Option String)
    (projectJson : Option JsonDbConfig) (storedBlob : Option String) :
    Except String ResolvedMysql :=
  match envContent.bind envMysqlCreds with
  | some c => .ok c
  | none =>
    match projectJson.bind jsonMysqlCreds with
    | some c => .ok c
    | none => .error credentialsNotFoundMsg

/-! ## Saving credentials (`save_db_credentials`, `db_tool_commands.rs:155-201`)

The command locates the project, merges the submitted credentials (as a
`"mysql"` record) into the `database` key of `.workshop/project.json`
preserving the file's other keys, and returns.  The
`DbConnectionManager` connection map (`state.rs:7-9`) is managed
application state, but `save_db_credentials` takes no reference to it:
its effect on the map is the identity.  (No registered command inserts
into that map either; every database command opens a fresh pool via
`connect_database`.) -/

/-- The credential payload of the `save_db_credentials` command
(`DbCredentials` in `db_tool_commands.rs:37-44`). -/
structure DbCredentialsInput where
  host : String
  port : String
  database : String
  username : String
  password : String
deriving Repr, DecidableEq

/-- The record written under the `database` key
(`db_tool_commands.rs:183-190`); `connection` is always `"mysql"`. -/
structure DbJsonRecord where
  connection : String
  host : String
  port : String
  database : String
  username : String
  password : String
deriving Repr, DecidableEq

/-- The `.workshop/project.json` document: its `database` key and its
remaining top-level keys (which the merge preserves). -/
structure WorkshopConfig where
  database : Option DbJsonRecord
  otherKeys : List (String × String)
deriving Repr, DecidableEq

/-- The state `save_db_credentials` can affect: the project's
`.workshop/project.json` (`none` when absent or unparsable, in which
case the source starts from `json!({})`) and the key set of the
`DbConnectionManager.connections` cache. -/
structure InspectorState where
  projectJson : Option WorkshopConfig
  connections : List String
deriving Repr, DecidableEq

/-- `save_db_credentials` (`db_tool_commands.rs:155-201`) on a project
that exists: overwrite the `database` key with the submitted
credentials as a `"mysql"` record, keep every other key, and leave the
connection cache untouched (the source never references
`DbConnectionManager`). -/
def save_db_credentials (projectId : String) (credentials : DbCredentialsInput)
    (st : InspectorState) : InspectorState :=
  let current := st.projectJson.getD ⟨none, []⟩
  { projectJson := some { current with
      database := some ⟨"mysql", credentials.host, credentials.port,
        credentials.database, credentials.username, credentials.password⟩ }
    connections := st.connections }

/-- C2 counterexample: saving credentials for project `"p1"` leaves a
cached connection entry for `"p1"` in place — the claim's required
invalidation does not happen (no code in `save_db_credentials` touches
the `DbConnectionManager` map). -/
theorem c2_counterexample_save_does_not_invalidate :
    "p1" ∈ (save_db_credentials "p1" ⟨"localhost", "3306", "app", "root", "pw"⟩
        ⟨none, ["p1"]⟩).connections ∧
    (save_db_credentials "p1" ⟨"localhost", "3306", "app", "root", "pw"⟩
        ⟨none, ["p1"]⟩).connections = ["p1"] := by
  constructor <;> decide

/-- C2 (amended): a successful `save_db_credentials` persists the
submitted credentials as the `"mysql"` record under the `database` key
of `.workshop/project.json`, preserving the file's other keys, and
leaves the connection cache exactly as it was: no invalidation is
performed.  (Since no registered command populates the cache, every
database operation reconnects through the cascade anyway, so the next
access does observe the new credentials.) -/
theorem c2_save_persists_without_invalidation (projectId : String)
    (credentials : DbCredentialsInput) (st : InspectorState) :
    (save_db_credentials projectId credentials st).connections = st.connections ∧
    (save_db_credentials projectId credentials st).projectJson =
      some ⟨some ⟨"mysql", credentials.host, credentials.port, credentials.database,
        credentials.username, credentials.password⟩,
        (st.projectJson.getD ⟨none, []⟩).otherKeys⟩ :=
  ⟨rfl, rfl⟩

/-- C3 counterexample: with no `.env` and no `.workshop/project.json`
but a stored credential blob present, resolution fails with the
configuration-not-found error — the claimed second cascade step (the
stored blob) is never consulted. -/
theorem c3_counterexample_blob_never_consulted :
    connect_database_resolve none none
        (some "\x7b\"connection\":\"sqlite\",\"database\":\"db.sqlite\"\x7d") =
      .error credentialsNotFoundMsg := rfl

/-- C3 (amended): credential resolution consults the `.env` file first
and then the legacy `.workshop/project.json`; the stored credential
blob is never consulted (the result is independent of it).  A matching
`.env` wins over everything — in particular over any stored blob — and
when neither file source matches, resolution fails with the
configuration-not-found error. -/
theorem c3_resolution_cascade (envContent : Option String)
    (projectJson : Option JsonDbConfig) (blob blob' : Option String) :
    (connect_database_resolve envContent projectJson blob
      = connect_database_resolve envContent projectJson blob') ∧
    (∀ c, envContent.bind envMysqlCreds = some c →
      connect_database_resolve envContent projectJson blob = .ok c) ∧
    (envContent.bind envMysqlCreds = none →
      ∀ c, projectJson.bind jsonMysqlCreds = some c →
        connect_database_resolve envContent projectJson blob = .ok c) ∧
    (envContent.bind envMysqlCreds = none →
      projectJson.bind jsonMysqlCreds = none →
      connect_database_resolve envContent projectJson blob = .error credentialsNotFoundMsg) := by
  refine ⟨rfl, fun c hc => ?_, fun hn c hc => ?_, fun hn hj => ?_⟩
  · unfold connect_database_resolve; rw [hc]
  · unfold connect_database_resolve; rw [hn, hc]
  · unfold connect_database_resolve; rw [hn, hj]

/-- C3 witness: a valid mysql `.env` wins over a simultaneously present
legacy json record and a stored sqlite blob. -/
theorem c3_witness :
    connect_database_resolve
        (some "DB_CONNECTION=mysql\nDB_HOST=localhost\nDB_PORT=3306\nDB_DATABASE=app\nDB_USERNAME=root\nDB_PASSWORD=pw")
        (some ⟨some "mysql", some "otherhost", some "3307", some "otherdb", some "u", some "p"⟩)
        (some "\x7b\"connection\":\"sqlite\"\x7d") =
      .ok ⟨"localhost", "3306", "app", "root", "pw"⟩ :=
  (c3_resolution_cascade _ _ _ none).2.1 _ (by decide)

/-- C9 counterexample: the `.env` step has no sqlite branch — a
`DB_CONNECTION=sqlite` file with `DB_DATABASE` present yields no
credentials (resolution falls through and fails) — and surrounding
double quotes are not stripped from values: a quoted `DB_PASSWORD`
keeps its quotes. -/
theorem c9_counterexample_no_sqlite_no_quote_stripping :
    connect_database_resolve
        (some "DB_CONNECTION=sqlite\nDB_DATABASE=database/database.sqlite") none none =
      .error credentialsNotFoundMsg ∧
    (envMysqlCreds
        "DB_CONNECTION=mysql\nDB_HOST=localhost\nDB_PORT=3306\nDB_DATABASE=app\nDB_USERNAME=root\nDB_PASSWORD=\"secret\"").map
        (fun c => c.password) = some "\"secret\"" :=
  ⟨rfl, by decide⟩

/-- C9 (amended): the `.env` step parses `KEY=VALUE` lines — splitting
at the first `=`, trimming whitespace (but not quotes) from key and
value, skipping lines whose trim is blank or that start with `#`, later
duplicates winning — and builds client/server credentials exactly when
`DB_CONNECTION=mysql` and all of `DB_HOST`, `DB_PORT`, `DB_DATABASE`,
`DB_USERNAME`, `DB_PASSWORD` are present; any other `DB_CONNECTION`
value (including `sqlite`) or a missing key yields nothing from this
step. -/
theorem c9_env_step_characterization (content : String) :
    (∀ h p d u pw,
      envLookup content "DB_CONNECTION" = some "mysql" →
      envLookup content "DB_HOST" = some h →
      envLookup content "DB_PORT" = some p →
      envLookup content "DB_DATABASE" = some d →
      envLookup content "DB_USERNAME" = some u →
      envLookup content "DB_PASSWORD" = some pw →
      envMysqlCreds content = some ⟨h, p, d, u, pw⟩) ∧
    (∀ conn, envLookup content "DB_CONNECTION" = some conn → conn ≠ "mysql" →
      envMysqlCreds content = none) ∧
    (envLookup content "DB_CONNECTION" = none → envMysqlCreds content = none) ∧
    (envLookup content "DB_HOST" = none → envMysqlCreds content = none) := by
  refine ⟨fun h p d u pw hc hh hp hd hu hpw => ?_, fun conn hc hne => ?_, fun hc => ?_, fun hh => ?_⟩
  · unfold envMysqlCreds; rw [hc, hh, hp, hd, hu, hpw]; simp
  · unfold envMysqlCreds; rw [hc]; simp [hne]
  · unfold envMysqlCreds; rw [hc]
  · unfold envMysqlCreds
    cases hc : envLookup content "DB_CONNECTION" with
    | none => rfl
    | some conn =>
        by_cases hm : conn = "mysql"
        · subst hm; simp [hh]
        · simp [hm]

/-- C9 witness: a well-formed mysql `.env` body (with whitespace to
trim and a duplicate key) resolves to the trimmed, last-bound values. -/
theorem c9_witness :
    envMysqlCreds
        "# config\nDB_CONNECTION=mysql\nDB_HOST= localhost \nDB_PORT=3306\nDB_DATABASE=app\nDB_USERNAME=root\nDB_PASSWORD=first\nDB_PASSWORD=pw" =
      some ⟨"localhost", "3306", "app", "root", "pw"⟩ :=
  (c9_env_step_characterization _).1 "localhost" "3306" "app" "root" "pw"
    (by decide) (by decide) (by decide) (by decide) (by decide) (by decide)

/-! ## Table pages and queries

Both backend variants of `db_factory.rs` and the registered
`get_table_data` command.  Engine execution is abstracted as a function
from the issued query text to the result set; the Rust side — clause
preprocessing, query construction, metadata extraction, value
conversion, the has-more probe — is translated from the source. -/

/-- Result-set column metadata as the `mysql` crate exposes it on a
row: the name, the debug-printed column type, and the NOT-NULL flag. -/
structure MyColumn where
  name : String
  typeLabel : String
  notNull : Bool
deriving Repr, DecidableEq

/-- One row of a MySQL result set: column metadata plus the values. -/
structure MySqlRow where
  cols : List MyColumn
  vals : List MySqlValue
deriving Repr, DecidableEq

/-- `ColumnDetail` (`models/db_types.rs:4-10`). -/
structure ColumnDetail where
  name : String
  data_type : String
  is_nullable : Bool
  default_value : Option String
deriving Repr, DecidableEq

/-- `TableData` (`models/db_types.rs:12-21`); a row is the per-column
association list the source builds as a `HashMap`.  Wall-clock
execution duration is not modelled and carried as `some 0`. -/
structure TableData where
  total : Nat
  has_more : Bool
  columns : List String
  column_details : List ColumnDetail
  rows : List (List (String × Option String))
  execution_duration_ms : Option Nat
deriving Repr, DecidableEq

/-- `clause.to_uppercase().rfind("LIMIT").is_some()`
(`db_factory.rs:115-116`). -/
def hasLimit (clause : String) : Bool :=
  (rsRfind (rsUpper clause) "LIMIT").isSome

/-- The shared where-clause step (`db_factory.rs:113-123`, also
`:406-417`): the text appended after `FROM <table>` and whether the
clause carried its own `LIMIT`. -/
def whereForSelect (where_clause : Option String) : String × Bool :=
  match where_clause with
  | none => ("", false)
  | some clause =>
    if rsTrim clause = "" then ("", false)
    else (" WHERE " ++ clause, hasLimit clause)

/-- ORDER BY construction for MySQL (`db_factory.rs:128-141`):
direction defaults to `ASC` on any non-`DESC` input, the column is
backtick-quoted with backticks doubled. -/
def mysqlOrderBy (sort_column sort_direction : Option String) : String :=
  match sort_column with
  | none => ""
  | some col =>
    if rsTrim col = "" then ""
    else
      let dir := (sort_direction.map rsUpper).getD "ASC"
      let dir := if dir = "DESC" then "DESC" else "ASC"
      " ORDER BY `" ++ rsReplaceChar col '`' "``" ++ "` " ++ dir

/-- The select text `MySqlBackend::get_table_data` issues
(`db_factory.rs:143-156`).  `page` is 1-based; for `page ≥ 1` the
natural-number `(page - 1) * per_page` coincides with the source's
`u32` arithmetic. -/
def mysqlBuildSelect (table_name : String) (page per_page : Nat)
    (where_clause sort_column sort_direction : Option String) : String :=
  let ws := whereForSelect where_clause
  if ws.2 then "SELECT * FROM " ++ table_name ++ ws.1
  else
    "SELECT * FROM " ++ table_name ++ ws.1 ++ mysqlOrderBy sort_column sort_direction
      ++ " LIMIT " ++ toString (per_page + 1) ++ " OFFSET " ++ toString ((page - 1) * per_page)

/-- The has-more probe (`db_factory.rs:187-191`): when more rows than
`limit` came back, drop the last row and report more pages. -/
def hasMoreProbe {α : Type} (data : List α) (limit : Nat) : List α × Bool :=
  if data.length > limit then (data.dropLast, true) else (data, false)

/-- Column names and details, derived from the first returned row
(`db_factory.rs:164-177`); an empty result has no metadata. -/
def mysqlColumnsOf (rows : List MySqlRow) : List String × List ColumnDetail :=
  match rows with
  | [] => ([], [])
  | first :: _ =>
    (first.cols.map (fun c => c.name),
     first.cols.map (fun c => ⟨c.name, c.typeLabel, !c.notNull, none⟩))

/-- One converted row (`db_factory.rs:179-185`): `row[i]` for each index
of the first row's column list.  (`row[i]` would panic out of range in
Rust; the driver returns as many values as columns, so the `getD`
default is never consulted.) -/
def mysqlRowData (columns : List String) (row : MySqlRow) :
    List (String × Option String) :=
  columns.enum.map (fun ic => (ic.2, MySqlBackend.convert_value (row.vals.getD ic.1 .NULL)))

/-- `MySqlBackend::get_table_data` (`db_factory.rs:96-201`), the engine
(`conn.query`) abstracted as a function from query text to rows. -/
def MySqlBackend.get_table_data (engine : String → List MySqlRow)
    (table_name : String) (page per_page : Nat)
    (where_clause sort_column sort_direction : Option String) : TableData :=
  let query := mysqlBuildSelect table_name page per_page where_clause sort_column sort_direction
  let rows := engine query
  let cd := mysqlColumnsOf rows
  let data := rows.map (mysqlRowData cd.1)
  let probe := hasMoreProbe data per_page
  { total := 0, has_more := probe.2, columns := cd.1, column_details := cd.2,
    rows := probe.1, execution_duration_ms := some 0 }

/-- `MySqlBackend::execute_query` (`db_factory.rs:203-243`). -/
def MySqlBackend.execute_query (engine : String → List MySqlRow)
    (query : String) : TableData :=
  let rows := engine query
  let cd := mysqlColumnsOf rows
  let data := rows.map (mysqlRowData cd.1)
  { total := data.length, has_more := false, columns := cd.1, column_details := cd.2,
    rows := data, execution_duration_ms := some 0 }

/-- What a prepared SQLite statement yields: the statement's column
names (available even on an empty result, unlike MySQL above) and the
rows. -/
structure SqliteQueryResult where
  cols : List String
  rows : List (List SqliteValue)
deriving Repr, DecidableEq

/-- ORDER BY construction for SQLite (`db_factory.rs:422-433`):
double-quote quoting with quotes doubled. -/
def sqliteOrderBy (sort_column sort_direction : Option String) : String :=
  match sort_column with
  | none => ""
  | some col =>
    if rsTrim col = "" then ""
    else
      let dir := (sort_direction.map rsUpper).getD "ASC"
      let dir := if dir = "DESC" then "DESC" else "ASC"
      " ORDER BY \"" ++ rsReplaceChar col '"' "\"\"" ++ "\" " ++ dir

/-- The select text `SqliteBackend::get_table_data` issues
(`db_factory.rs:435-448`). -/
def sqliteBuildSelect (table_name : String) (page per_page : Nat)
    (where_clause sort_column sort_direction : Option String) : String :=
  let ws := whereForSelect where_clause
  if ws.2 then "SELECT * FROM " ++ table_name ++ ws.1
  else
    "SELECT * FROM " ++ table_name ++ ws.1 ++ sqliteOrderBy sort_column sort_direction
      ++ " LIMIT " ++ toString (per_page + 1) ++ " OFFSET " ++ toString ((page - 1) * per_page)

/-- One converted SQLite row (`db_factory.rs:462-471`). -/
def sqliteRowData (columns : List String) (row : List SqliteValue) :
    List (String × Option String) :=
  columns.enum.map (fun ic => (ic.2, SqliteBackend.convert_value (row.getD ic.1 .Null)))

/-- `SqliteBackend::get_table_data` (`db_factory.rs:391-505`): columns
come from the prepared statement, details are the fixed
`UNKNOWN`/nullable placeholders, then the same has-more probe. -/
def SqliteBackend.get_table_data (engine : String → SqliteQueryResult)
    (table_name : String) (page per_page : Nat)
    (where_clause sort_column sort_direction : Option String) : TableData :=
  let query := sqliteBuildSelect table_name page per_page where_clause sort_column sort_direction
  let res := engine query
  let data := res.rows.map (sqliteRowData res.cols)
  let details := res.cols.map (fun c => (⟨c, "UNKNOWN", true, none⟩ : ColumnDetail))
  let probe := hasMoreProbe data per_page
  { total := 0, has_more := probe.2, columns := res.cols, column_details := details,
    rows := probe.1, execution_duration_ms := some 0 }

/-- The legacy command's result shape (`db_tool_commands.rs:30-35`):
plain-text cells, a count, no has-more flag. -/
structure TableDataCmd where
  total : Nat
  columns : List String
  rows : List (List (String × String))
deriving Repr, DecidableEq

/-- The outcome of the registered `get_table_data` command's
where-clause preprocessing (`db_tool_commands.rs:231-254`). -/
structure CmdWhere where
  selectW : String
  countW : String
  hasLim : Bool
  perPage : Nat
deriving Repr, DecidableEq

/-- Where-clause preprocessing of the registered `get_table_data`
command (`db_tool_commands.rs:231-254`): on a LIMIT-bearing filter the
count query keeps only the text before the last `LIMIT` (trimmed), the
select keeps the filter verbatim, and `per_page` is overwritten with
the value after `LIMIT` when its first token parses as a `u32`. -/
def cmdWhereClauses (where_clause : Option String) (per_page : Nat) : CmdWhere :=
  match where_clause with
  | none => ⟨"", "", false, per_page⟩
  | some clause =>
    if rsTrim clause = "" then ⟨"", "", false, per_page⟩
    else
      match rsRfind (rsUpper clause) "LIMIT" with
      | some index =>
        let limitPart := rsTrim (rsDrop clause (index + 5))
        let perPage' :=
          match (rsFirstToken limitPart).bind rsParseU32 with
          | some v => v
          | none => per_page
        ⟨" WHERE " ++ clause, " WHERE " ++ rsTrim (rsTake clause index), true, perPage'⟩
      | none =>
        ⟨" WHERE " ++ clause, " WHERE " ++ clause, false, per_page⟩

/-- The registered `get_table_data` command
(`db_tool_commands.rs:218-308`), with the COUNT and SELECT engine calls
abstracted (`countEngine` is `query_first(..)?.unwrap_or(0)`). -/
def get_table_data_cmd (selectEngine : String → List MySqlRow)
    (countEngine : String → Nat) (table_name : String) (page per_page : Nat)
    (where_clause : Option String) : TableDataCmd :=
  let wc := cmdWhereClauses where_clause per_page
  let offset := (page - 1) * wc.perPage
  let count := countEngine ("SELECT COUNT(*) as count FROM " ++ table_name ++ wc.countW)
  let query :=
    if wc.hasLim then "SELECT * FROM " ++ table_name ++ wc.selectW
    else
      "SELECT * FROM " ++ table_name ++ wc.selectW ++ " LIMIT " ++ toString wc.perPage
        ++ " OFFSET " ++ toString offset
  let rows := selectEngine query
  let columns :=
    match rows with
    | [] => []
    | first :: _ => first.cols.map (fun c => c.name)
  let data := rows.map (fun row =>
    columns.enum.map (fun ic => (ic.2, convert_mysql_value (row.vals.getD ic.1 .NULL))))
  { total := count, columns := columns, rows := data }

/-- C4 counterexample: the converter used by the registered
`get_table_data`/`execute_query` commands maps engine NULL to the
literal string `"NULL"` (and yields plain, not optional, text), while
the `db_factory` backend converter maps it to `None`. -/
theorem c4_counterexample_cmd_null_literal :
    convert_mysql_value MySqlValue.NULL = "NULL" ∧
    MySqlBackend.convert_value MySqlValue.NULL = none :=
  ⟨rfl, rfl⟩

/-- C4 (amended): cell values leaving the `db_factory` backends are
normalized to optional text exactly as claimed — engine NULL to `None`,
blobs to best-effort UTF-8 text, integers/floats to decimal text,
date-times to `YYYY-MM-DD HH:MM:SS`, durations to signed `D.HH:MM:SS`,
and non-NULL values are always `Some` — but the registered legacy
commands use `convert_mysql_value`, which renders engine NULL as the
literal string `"NULL"`. -/
theorem c4_backend_normalization :
    MySqlBackend.convert_value .NULL = none ∧
    (∀ v, v ≠ .NULL → (MySqlBackend.convert_value v).isSome = true) ∧
    (∀ v, MySqlBackend.convert_value v = specNormalizeMySql v) ∧
    SqliteBackend.convert_value .Null = none ∧
    (∀ w, w ≠ .Null → (SqliteBackend.convert_value w).isSome = true) ∧
    (∀ bs, SqliteBackend.convert_value (.Blob bs) = some (utf8Lossy bs)) ∧
    (∀ i, SqliteBackend.convert_value (.Integer i) = some (toString i)) := by
  refine ⟨rfl, fun v hv => ?_, fun v => ?_, rfl, fun w hw => ?_, fun bs => rfl, fun i => rfl⟩
  · cases v <;> first | exact absurd rfl hv | rfl
  · cases v <;>
      simp [MySqlBackend.convert_value, specNormalizeMySql, specDateTimeText, specDurationText,
        String.intercalate, String.intercalate.go, String.append_assoc]
  · cases w <;> first | exact absurd rfl hw | rfl

/-- C4 witness: a concrete date value is non-NULL and normalizes to
`Some` of the fixed format. -/
theorem c4_witness :
    (MySqlValue.Date 2024 3 7 9 5 2 0 ≠ MySqlValue.NULL) ∧
    (MySqlBackend.convert_value (MySqlValue.Date 2024 3 7 9 5 2 0)).isSome = true ∧
    MySqlBackend.convert_value (MySqlValue.Date 2024 3 7 9 5 2 0) =
      some "2024-03-07 09:05:02" :=
  ⟨by decide,
    c4_backend_normalization.2.1 (MySqlValue.Date 2024 3 7 9 5 2 0) (by decide),
    by decide⟩

theorem whereForSelect_no_limit {where_clause : Option String}
    (h : ∀ clause ∈ where_clause, hasLimit clause = false) :
    (whereForSelect where_clause).2 = false := by
  cases where_clause with
  | none => rfl
  | some clause =>
      simp only [whereForSelect]
      by_cases ht : rsTrim clause = ""
      · simp [ht]
      · simp [ht, h clause rfl]

theorem hasMoreProbe_fst_length {α : Type} (data : List α) (limit : Nat)
    (h : data.length ≤ limit + 1) :
    (hasMoreProbe data limit).1.length ≤ limit := by
  unfold hasMoreProbe
  by_cases hl : data.length > limit
  · rw [if_pos hl]
    show data.dropLast.length ≤ limit
    simp only [List.length_dropLast]
    omega
  · rw [if_neg hl]
    show data.length ≤ limit
    omega

theorem hasMoreProbe_snd {α : Type} (data : List α) (limit : Nat) :
    (hasMoreProbe data limit).2 = true ↔ limit < data.length := by
  unfold hasMoreProbe
  by_cases hl : data.length > limit
  · rw [if_pos hl]; simpa using hl
  · rw [if_neg hl]; exact iff_of_false (by simp) hl

/-- C10: for the client/server (MySQL) backend, a query whose result
set is empty yields a `TableData` with empty `columns` and
`column_details` (metadata is derived from the first returned row),
for `get_table_data` and `execute_query` alike. -/
theorem c10_empty_result_empty_metadata
    (engine : String → List MySqlRow) (table_name query : String)
    (page per_page : Nat) (where_clause sort_column sort_direction : Option String)
    (h1 : engine (mysqlBuildSelect table_name page per_page where_clause
        sort_column sort_direction) = [])
    (h2 : engine query = []) :
    ((MySqlBackend.get_table_data engine table_name page per_page where_clause
        sort_column sort_direction).columns = [] ∧
      (MySqlBackend.get_table_data engine table_name page per_page where_clause
        sort_column sort_direction).column_details = [] ∧
      (MySqlBackend.get_table_data engine table_name page per_page where_clause
        sort_column sort_direction).rows = []) ∧
    ((MySqlBackend.execute_query engine query).columns = [] ∧
      (MySqlBackend.execute_query engine query).column_details = [] ∧
      (MySqlBackend.execute_query engine query).rows = []) := by
  simp only [MySqlBackend.get_table_data, MySqlBackend.execute_query, h1, h2]
  simp [mysqlColumnsOf, hasMoreProbe]

/-- C10 witness: a concrete engine returning no rows. -/
theorem c10_witness :
    ((MySqlBackend.get_table_data (fun _ => []) "users" 1 10 none none none).columns = [] ∧
      (MySqlBackend.get_table_data (fun _ => []) "users" 1 10 none none none).column_details = [] ∧
      (MySqlBackend.get_table_data (fun _ => []) "users" 1 10 none none none).rows = []) ∧
    ((MySqlBackend.execute_query (fun _ => []) "SELECT 1").columns = [] ∧
      (MySqlBackend.execute_query (fun _ => []) "SELECT 1").column_details = [] ∧
      (MySqlBackend.execute_query (fun _ => []) "SELECT 1").rows = []) :=
  c10_empty_result_empty_metadata (fun _ => []) "users" "SELECT 1" 1 10 none none none rfl rfl

/-- C5: with a LIMIT-free filter, the backend select requests
`per_page + 1` rows at offset `(page - 1) * per_page`; assuming the
engine answers that query with exactly the window of the underlying
filtered result, the caller receives at most `per_page` rows and
`has_more` is true iff more than `per_page` rows follow the offset —
false at the exact boundary.  Proved for both backend variants. -/
theorem c5_page_probe
    (mysqlEngine : String → List MySqlRow) (sqliteEngine : String → SqliteQueryResult)
    (allRows : List MySqlRow) (sqCols : List String) (sqRows : List (List SqliteValue))
    (table_name : String) (page per_page : Nat)
    (where_clause sort_column sort_direction : Option String)
    (hpage : 1 ≤ page)
    (hnl : ∀ clause ∈ where_clause, hasLimit clause = false)
    (hm : mysqlEngine (mysqlBuildSelect table_name page per_page where_clause
        sort_column sort_direction)
      = (allRows.drop ((page - 1) * per_page)).take (per_page + 1))
    (hs : sqliteEngine (sqliteBuildSelect table_name page per_page where_clause
        sort_column sort_direction)
      = ⟨sqCols, (sqRows.drop ((page - 1) * per_page)).take (per_page + 1)⟩) :
    (mysqlBuildSelect table_name page per_page where_clause sort_column sort_direction
      = "SELECT * FROM " ++ table_name ++ (whereForSelect where_clause).1
        ++ mysqlOrderBy sort_column sort_direction ++ " LIMIT " ++ toString (per_page + 1)
        ++ " OFFSET " ++ toString ((page - 1) * per_page)) ∧
    (MySqlBackend.get_table_data mysqlEngine table_name page per_page where_clause
        sort_column sort_direction).rows.length ≤ per_page ∧
    ((MySqlBackend.get_table_data mysqlEngine table_name page per_page where_clause
        sort_column sort_direction).has_more = true
      ↔ per_page < (allRows.drop ((page - 1) * per_page)).length) ∧
    (SqliteBackend.get_table_data sqliteEngine table_name page per_page where_clause
        sort_column sort_direction).rows.length ≤ per_page ∧
    ((SqliteBackend.get_table_data sqliteEngine table_name page per_page where_clause
        sort_column sort_direction).has_more = true
      ↔ per_page < (sqRows.drop ((page - 1) * per_page)).length) := by
  have hws := whereForSelect_no_limit hnl
  refine ⟨?_, ?_, ?_, ?_, ?_⟩
  · simp only [mysqlBuildSelect, hws]
    simp
  · simp only [MySqlBackend.get_table_data, hm]
    apply hasMoreProbe_fst_length
    simp only [List.length_map, List.length_take]
    omega
  · simp only [MySqlBackend.get_table_data, hm]
    rw [hasMoreProbe_snd]
    simp only [List.length_map, List.length_take]
    omega
  · simp only [SqliteBackend.get_table_data, hs]
    apply hasMoreProbe_fst_length
    simp only [List.length_map, List.length_take]
    omega
  · simp only [SqliteBackend.get_table_data, hs]
    rw [hasMoreProbe_snd]
    simp only [List.length_map, List.length_take]
    omega

/-- C5 witness: 5 underlying rows, `page = 2`, `per_page = 2` (one row
past the boundary: `has_more` holds), and 4 underlying rows at the
exact boundary (`has_more` fails). -/
theorem c5_witness :
    ((MySqlBackend.get_table_data
        (fun _ => (((List.range 5).map (fun i => MySqlRow.mk [⟨"id", "LONG", true⟩]
          [.Int (Int.ofNat i)])).drop ((2 - 1) * 2)).take (2 + 1))
        "users" 2 2 none none none).rows.length ≤ 2) ∧
    ((MySqlBackend.get_table_data
        (fun _ => (((List.range 5).map (fun i => MySqlRow.mk [⟨"id", "LONG", true⟩]
          [.Int (Int.ofNat i)])).drop ((2 - 1) * 2)).take (2 + 1))
        "users" 2 2 none none none).has_more = true ↔ 2 < 3) ∧
    ((MySqlBackend.get_table_data
        (fun _ => (((List.range 4).map (fun i => MySqlRow.mk [⟨"id", "LONG", true⟩]
          [.Int (Int.ofNat i)])).drop ((2 - 1) * 2)).take (2 + 1))
        "users" 2 2 none none none).has_more = true ↔ 2 < 2) := by
  have hnone : ∀ clause ∈ (none : Option String), hasLimit clause = false :=
    fun c hc => absurd hc (Option.not_mem_none c)
  have h5 := c5_page_probe
    (fun _ => (((List.range 5).map (fun i => MySqlRow.mk [⟨"id", "LONG", true⟩]
      [.Int (Int.ofNat i)])).drop ((2 - 1) * 2)).take (2 + 1))
    (fun _ => ⟨["id"], []⟩)
    ((List.range 5).map (fun i => MySqlRow.mk [⟨"id", "LONG", true⟩] [.Int (Int.ofNat i)]))
    ["id"] [] "users" 2 2 none none none (by decide) hnone rfl (by decide)
  have h4 := c5_page_probe
    (fun _ => (((List.range 4).map (fun i => MySqlRow.mk [⟨"id", "LONG", true⟩]
      [.Int (Int.ofNat i)])).drop ((2 - 1) * 2)).take (2 + 1))
    (fun _ => ⟨["id"], []⟩)
    ((List.range 4).map (fun i => MySqlRow.mk [⟨"id", "LONG", true⟩] [.Int (Int.ofNat i)]))
    ["id"] [] "users" 2 2 none none none (by decide) hnone rfl (by decide)
  exact ⟨h5.2.1, h5.2.2.1.trans (by decide), h4.2.2.1.trans (by decide)⟩

/-- C6: when the filter's upper-cased form contains the token `LIMIT`,
the select uses the filter text verbatim after `WHERE` — no
`LIMIT`/`OFFSET` appended and no `ORDER BY` injected, in the registered
command and in both backend query builders — and the registered
command's entire result is independent of the `page` and `per_page`
inputs: the caller receives exactly the engine's rows for the verbatim
select. -/
theorem c6_limit_filter_used_verbatim
    (selectEngine : String → List MySqlRow) (countEngine : String → Nat)
    (table_name clause : String) (page per_page : Nat)
    (sort_column sort_direction : Option String)
    (hne : rsTrim clause ≠ "") (hlim : hasLimit clause = true) :
    (∀ page' per_page',
      get_table_data_cmd selectEngine countEngine table_name page per_page (some clause)
        = get_table_data_cmd selectEngine countEngine table_name page' per_page' (some clause)) ∧
    ((get_table_data_cmd selectEngine countEngine table_name page per_page
        (some clause)).rows.length
      = (selectEngine ("SELECT * FROM " ++ table_name ++ " WHERE " ++ clause)).length) ∧
    (mysqlBuildSelect table_name page per_page (some clause) sort_column sort_direction
      = "SELECT * FROM " ++ table_name ++ " WHERE " ++ clause) ∧
    (sqliteBuildSelect table_name page per_page (some clause) sort_column sort_direction
      = "SELECT * FROM " ++ table_name ++ " WHERE " ++ clause) := by
  obtain ⟨index, hidx⟩ := Option.isSome_iff_exists.mp hlim
  have hassoc : "SELECT * FROM " ++ table_name ++ (" WHERE " ++ clause)
      = "SELECT * FROM " ++ table_name ++ " WHERE " ++ clause := by
    simp [String.append_assoc]
  have hws : whereForSelect (some clause) = (" WHERE " ++ clause, true) := by
    simp only [whereForSelect, if_neg hne, hlim]
  refine ⟨fun page' per_page' => ?_, ?_, ?_, ?_⟩
  · simp [get_table_data_cmd, cmdWhereClauses, if_neg hne, hidx]
  · simp [get_table_data_cmd, cmdWhereClauses, if_neg hne, hidx, String.append_assoc]
  · simp [mysqlBuildSelect, hws, String.append_assoc]
  · simp [sqliteBuildSelect, hws, String.append_assoc]

/-- C6 witness: the scenario of §8 — filter `"id > 5 LIMIT 3"` — with a
concrete three-row engine: the command's output is identical for
`(page, per_page) = (1, 10)` and `(7, 2)`, all three engine rows are
returned, and both backend builders produce the verbatim select. -/
theorem c6_witness :
    (get_table_data_cmd
        (fun _ => [MySqlRow.mk [⟨"id", "LONG", true⟩] [.Int 6],
          MySqlRow.mk [⟨"id", "LONG", true⟩] [.Int 7],
          MySqlRow.mk [⟨"id", "LONG", true⟩] [.Int 8]])
        (fun _ => 3) "users" 1 10 (some "id > 5 LIMIT 3")
      = get_table_data_cmd
        (fun _ => [MySqlRow.mk [⟨"id", "LONG", true⟩] [.Int 6],
          MySqlRow.mk [⟨"id", "LONG", true⟩] [.Int 7],
          MySqlRow.mk [⟨"id", "LONG", true⟩] [.Int 8]])
        (fun _ => 3) "users" 7 2 (some "id > 5 LIMIT 3")) ∧
    (get_table_data_cmd
        (fun _ => [MySqlRow.mk [⟨"id", "LONG", true⟩] [.Int 6],
          MySqlRow.mk [⟨"id", "LONG", true⟩] [.Int 7],
          MySqlRow.mk [⟨"id", "LONG", true⟩] [.Int 8]])
        (fun _ => 3) "users" 1 10 (some "id > 5 LIMIT 3")).rows.length = 3 ∧
    mysqlBuildSelect "users" 1 10 (some "id > 5 LIMIT 3") (some "name") (some "desc")
      = "SELECT * FROM users WHERE id > 5 LIMIT 3" ∧
    sqliteBuildSelect "users" 1 10 (some "id > 5 LIMIT 3") (some "name") (some "desc")
      = "SELECT * FROM users WHERE id > 5 LIMIT 3" := by
  have h := c6_limit_filter_used_verbatim
    (fun _ => [MySqlRow.mk [⟨"id", "LONG", true⟩] [.Int 6],
      MySqlRow.mk [⟨"id", "LONG", true⟩] [.Int 7],
      MySqlRow.mk [⟨"id", "LONG", true⟩] [.Int 8]])
    (fun _ => 3) "users" "id > 5 LIMIT 3" 1 10 (some "name") (some "desc")
    (by decide) (by decide)
  exact ⟨h.1 7 2, h.2.1.trans (by decide), h.2.2.1.trans (by decide), h.2.2.2.trans (by decide)⟩

/-- C8: `update_row` excludes the primary-key column from the change
set even if present (the call behaves exactly as if the pk entries had
been removed first), and when the effective change set after that
exclusion is empty the call is a no-op: it returns `Ok(0)` without
issuing any SQL statement. -/
theorem c8_update_excludes_pk_and_noops
    (table_name pk_column pk_value : String) (data : List (String × String))
    (hT : is_valid_ident table_name = true) (hP : is_valid_ident pk_column = true) :
    (update_row_cmd table_name pk_column pk_value data
      = update_row_cmd table_name pk_column pk_value
          (data.filter (fun kv => kv.1 ≠ pk_column))) ∧
    (data.filter (fun kv => kv.1 ≠ pk_column) = [] →
      update_row_cmd table_name pk_column pk_value data = .ok .noop ∧
      issuedStmts (update_row_cmd table_name pk_column pk_value data) = []) := by
  have hguard : (!is_valid_ident table_name || !is_valid_ident pk_column) = false := by
    simp [hT, hP]
  constructor
  · have hff : data.filter (fun kv => kv.1 ≠ pk_column) =
        (data.filter (fun kv => kv.1 ≠ pk_column)).filter (fun kv => kv.1 ≠ pk_column) := by
      rw [List.filter_filter]
      exact (List.filter_congr (fun x _ => Bool.and_self _)).symm
    simp only [update_row_cmd, hguard, Bool.false_eq_true, if_false]
    rw [← hff]
  · intro hemp
    have h1 : update_row_cmd table_name pk_column pk_value data = .ok .noop := by
      simp only [update_row_cmd, hguard, Bool.false_eq_true, if_false, hemp]
      rfl
    exact ⟨h1, by rw [h1]; rfl⟩

/-- C8 witness: a change set containing only the primary-key column
collapses to the empty effective set and the call is a no-op issuing
nothing. -/
theorem c8_witness :
    (update_row_cmd "users" "id" "42" [("id", "99")]
      = update_row_cmd "users" "id" "42"
          (([("id", "99")] : List (String × String)).filter (fun kv => kv.1 ≠ "id"))) ∧
    (update_row_cmd "users" "id" "42" [("id", "99")] = .ok .noop ∧
      issuedStmts (update_row_cmd "users" "id" "42" [("id", "99")]) = []) := by
  have h := c8_update_excludes_pk_and_noops "users" "id" "42" [("id", "99")]
    (by decide) (by decide)
  exact ⟨h.1, h.2 (by decide)⟩

end Workshop
